import Mathlib

/-!
Verification of the 1touch ingestion pipeline (python/one_touch_loader).

Each definition below is a shallow embedding of the corresponding python
function or SQL statement, keeping the source's names where Lean allows.
Database stores are modelled as functions from keys to optional rows; the
merge-on-conflict SQL statements become explicit store-update functions.
-/

namespace OneTouch

/-! ## Points-pace upsert (loaders/points_pace.py, SQL_UPSERT_POINTS_PACE)

`INSERT INTO points_pace ... ON DUPLICATE KEY UPDATE
   match_date = VALUES(match_date),
   cumulative_points = GREATEST(cumulative_points, VALUES(cumulative_points))`

The key is (league_id, season_id, team_id, round_no); the non-key payload is
the match date and the cumulative points. -/

/-- A stored `points_pace` row payload: match date and cumulative points. -/
structure PaceVal where
  match_date : String
  cumulative_points : Int
deriving DecidableEq

/-- The `points_pace` table, keyed by (league_id, season_id, team_id, round_no). -/
def PaceStore : Type := Nat × Nat × Nat × Nat → Option PaceVal

/-- One execution of SQL_UPSERT_POINTS_PACE for a single row: on a fresh key the
row is inserted as given; on key collision the date is overwritten with the new
value and the cumulative points become GREATEST(old, new). -/
def upsertPace (st : PaceStore) (k : Nat × Nat × Nat × Nat) (d : String) (c : Int) :
    PaceStore :=
  fun k2 =>
    if k2 = k then
      match st k with
      | none => some ⟨d, c⟩
      | some v => some ⟨d, max v.cumulative_points c⟩
    else st k2

/-! ## Competition classification (sm/helpers.py and loaders/big5_bootstrap.py) -/

/-- Python's `str.lower`, character by character (the sub-type codes are
ASCII). -/
def pyLower (s : String) : String := ⟨s.data.map Char.toLower⟩

/-- `classify_competition` from sm/helpers.py.  Maps a league sub_type to the
three-way classification; note the domestic-cup branch returns "cup". -/
def classify_competition (sub_type : Option String) : String :=
  match sub_type with
  | none => "league"
  | some s0 =>
    if s0 = "" then "league"
    else if pyLower s0 = "domestic_cup" then "cup"
    else if pyLower s0 = "cup_international" then "europe"
    else "league"

/-- `_map_league_sub_type_to_competition` from loaders/big5_bootstrap.py. -/
def _map_league_sub_type_to_competition (sub_type : Option String) : String :=
  if pyLower (sub_type.getD "") = "domestic" then "league"
  else if pyLower (sub_type.getD "") = "domestic_cup" then "domestic_cup"
  else if pyLower (sub_type.getD "") = "cup_international" then "europe"
  else "league"

/-- EURO_LEAGUE_IDS from loaders/big5_bootstrap.py (UCL, UEL, UECL). -/
def EURO_LEAGUE_IDS : List Nat := [2, 5, 2286]

/-- DOMESTIC_CUP_LEAGUE_IDS from loaders/big5_bootstrap.py. -/
def DOMESTIC_CUP_LEAGUE_IDS : List Nat := [24, 27, 390, 570]

/-- `classify_comp_by_league_id` from loaders/big5_bootstrap.py.  The in-run
cache lookup (after `ensure_leagues_by_ids`) is modelled by the
`cached_sub_type` argument: the `sub_type` stored for the league, when any. -/
def classify_comp_by_league_id (league_id : Option Nat) (cached_sub_type : Option String) :
    String :=
  match league_id with
  | none => "league"
  | some lid =>
    if lid = 0 then "league"
    else if cached_sub_type.getD "" = "" then
      if lid ∈ EURO_LEAGUE_IDS then "europe"
      else if lid ∈ DOMESTIC_CUP_LEAGUE_IDS then "domestic_cup"
      else "league"
    else _map_league_sub_type_to_competition (some (cached_sub_type.getD ""))

/-! ## The GET retry loop (core/sportmonks.py, SportmonksClient._get)

The loop makes at most `max_retries` requests.  A 429 response sleeps and
continues without recording any exception; a non-429 response with status ≥ 400
raises through `raise_for_status`, which is retried (recording the exception as
`last_exc`) only for 5xx with attempts remaining.  After the loop, `last_exc`
is re-raised when present; otherwise a fresh
`HTTPError("GET failed after ... retries")` is raised. -/

/-- Errors the embedded `_get` can produce: an HTTP-status exception raised by
`raise_for_status` on a particular response, or the fresh error constructed
after the attempt loop is exhausted. -/
inductive GetErr where
  | httpStatus (status : Nat)
  | failedAfterRetries (attempts : Nat)
deriving DecidableEq

/-- The attempt loop of `SportmonksClient._get`.  `resp i` is the HTTP status
of the i-th request; `k` counts the attempts remaining out of `maxRetries`. -/
def getLoop (resp : Nat → Nat) (maxRetries : Nat) : Nat → Option GetErr → Except GetErr Nat
  | 0, lastExc =>
    match lastExc with
    | some e => .error e
    | none => .error (.failedAfterRetries maxRetries)
  | k + 1, lastExc =>
    let s := resp (maxRetries - (k + 1))
    if s = 429 then getLoop resp maxRetries k lastExc
    else if 400 ≤ s then
      if 500 ≤ s ∧ s < 600 ∧ 0 < k then getLoop resp maxRetries k (some (.httpStatus s))
      else .error (.httpStatus s)
    else .ok s

/-- `SportmonksClient._get`, abstracted over the response sequence.  Returns
the successful response status (standing in for the decoded JSON body) or the
raised error. -/
def sportmonks_get (resp : Nat → Nat) (maxRetries : Nat := 6) : Except GetErr Nat :=
  getLoop resp maxRetries maxRetries none

/-! ## Timestamp normalization (`_normalize_dt`, identical in
loaders/big5_bootstrap.py and loaders/standings_loader.py) -/

/-- Python's `str.replace` for a single-character pattern: every occurrence of
`c` becomes the string `r` (all patterns `_normalize_dt` replaces are one
character: "Z" and "T"). -/
def replaceChar (s : String) (c : Char) (r : String) : String :=
  ⟨(s.data.map (fun ch => if ch = c then r.data else [ch])).flatten⟩

/-- A datetime value as produced by `datetime.fromisoformat`: calendar fields
plus the utc offset in minutes when the input carried one (aware), else none
(naive). -/
structure PyDateTime where
  year : Nat
  month : Nat
  day : Nat
  hour : Nat
  minute : Nat
  second : Nat
  tzOffsetMinutes : Option Int
deriving DecidableEq

/-- Numeric value of an ASCII digit character. -/
def digitVal (c : Char) : Nat := c.toNat - 48

/-- Read exactly two digits from the front of the character list. -/
def parse2 : List Char → Option (Nat × List Char)
  | a :: b :: rest =>
    if a.isDigit && b.isDigit then some (digitVal a * 10 + digitVal b, rest) else none
  | _ => none

/-- Read exactly four digits from the front of the character list. -/
def parse4 : List Char → Option (Nat × List Char)
  | a :: b :: c :: d :: rest =>
    if a.isDigit && b.isDigit && c.isDigit && d.isDigit then
      some (((digitVal a * 10 + digitVal b) * 10 + digitVal c) * 10 + digitVal d, rest)
    else none
  | _ => none

/-- Consume one expected character. -/
def expectChar (c : Char) : List Char → Option (List Char)
  | x :: rest => if x = c then some rest else none
  | [] => none

/-- Read a time of the form `HH:MM` or `HH:MM:SS`. -/
def parseHMS (l : List Char) : Option (Nat × Nat × Nat × List Char) :=
  match parse2 l with
  | none => none
  | some (hh, r1) =>
    match expectChar ':' r1 with
    | none => none
    | some r2 =>
      match parse2 r2 with
      | none => none
      | some (mm, r3) =>
        match expectChar ':' r3 with
        | none => some (hh, mm, 0, r3)
        | some r4 =>
          match parse2 r4 with
          | none => none
          | some (ss, r5) => some (hh, mm, ss, r5)

/-- `datetime.fromisoformat` in its CPython ≤ 3.10 profile, the shapes this
pipeline feeds it: `YYYY-MM-DD`, optionally a one-character separator plus
`HH:MM[:SS]`, optionally a `±HH:MM` utc offset, and the whole string must be
consumed.  Fractional seconds are not modelled (the fallback produces the same
output for them). -/
def fromisoformat (s : String) : Option PyDateTime :=
  match parse4 s.data with
  | none => none
  | some (y, r1) =>
    match expectChar '-' r1 with
    | none => none
    | some r2 =>
      match parse2 r2 with
      | none => none
      | some (mo, r3) =>
        match expectChar '-' r3 with
        | none => none
        | some r4 =>
          match parse2 r4 with
          | none => none
          | some (da, r5) =>
            if 1 ≤ mo ∧ mo ≤ 12 ∧ 1 ≤ da ∧ da ≤ 31 then
              match r5 with
              | [] => some ⟨y, mo, da, 0, 0, 0, none⟩
              | _sep :: r6 =>
                match parseHMS r6 with
                | none => none
                | some (hh, mi, ss, r7) =>
                  if hh ≤ 23 ∧ mi ≤ 59 ∧ ss ≤ 59 then
                    match r7 with
                    | [] => some ⟨y, mo, da, hh, mi, ss, none⟩
                    | tzc :: r8 =>
                      if tzc = '+' ∨ tzc = '-' then
                        match parse2 r8 with
                        | none => none
                        | some (oh, r9) =>
                          match expectChar ':' r9 with
                          | none => none
                          | some r10 =>
                            match parse2 r10 with
                            | none => none
                            | some (om, r11) =>
                              if r11 = [] ∧ oh ≤ 23 ∧ om ≤ 59 then
                                some ⟨y, mo, da, hh, mi, ss,
                                  some (if tzc = '-' then -(((oh * 60 + om : Nat)) : Int)
                                        else (((oh * 60 + om : Nat)) : Int))⟩
                              else none
                      else none
                  else none
            else none

/-- Zero-padded two-digit decimal rendering. -/
def pad2 (n : Nat) : String := if n < 10 then "0" ++ toString n else toString n

/-- Zero-padded four-digit decimal rendering. -/
def pad4 (n : Nat) : String :=
  if n < 10 then "000" ++ toString n
  else if n < 100 then "00" ++ toString n
  else if n < 1000 then "0" ++ toString n
  else toString n

/-- `dt.strftime("%Y-%m-%d %H:%M:%S")`.  The offset field is not printed;
`.replace(tzinfo=None)` has already dropped it. -/
def strftimeYmdHMS (d : PyDateTime) : String :=
  pad4 d.year ++ "-" ++ pad2 d.month ++ "-" ++ pad2 d.day ++ " " ++
    pad2 d.hour ++ ":" ++ pad2 d.minute ++ ":" ++ pad2 d.second

/-- The except-branch of `_normalize_dt`:
`s.replace("T", " ").replace("Z", "")`, then cut at the first '+', else strip
a trailing six-character offset shaped `±HH:MM`, then truncate to 19
characters. -/
def cleanedChars (s : String) : List Char :=
  (replaceChar (replaceChar s 'T' " ") 'Z' "").data

/-- After the T/Z cleanup: cut at the first '+', else strip a trailing
six-character offset shaped `±HH:MM`. -/
def stripOffsetChars (l : List Char) : List Char :=
  if l.contains '+' then l.takeWhile (fun ch => ch != '+')
  else if 6 ≤ l.length ∧ (l.getD (l.length - 6) ' ' = '+' ∨ l.getD (l.length - 6) ' ' = '-') ∧
      l.getD (l.length - 3) ' ' = ':' then
    l.take (l.length - 6)
  else l

def truncateFallback (s : String) : String :=
  ⟨(stripOffsetChars (cleanedChars s)).take 19⟩

/-- `_normalize_dt`: null/empty input gives null; otherwise "Z" is replaced by
"+00:00" and `fromisoformat` is tried, the result formatted naive; on parse
failure the truncation fallback is applied to the original string. -/
def _normalize_dt (s : Option String) : Option String :=
  match s with
  | none => none
  | some str =>
    if str = "" then none
    else
      match fromisoformat (replaceChar str 'Z' "+00:00") with
      | some dt => some (strftimeYmdHMS dt)
      | none => some (truncateFallback str)

/-! ## Standings aggregation (loaders/standings_loader.py) -/

/-- One fetched fixture row `(home_team_id, away_team_id, home_score,
away_score, starting_at)`; `starting_at` is an abstract chronological
timestamp. -/
structure MatchRow where
  home_id : Nat
  away_id : Nat
  home_score : Option Int
  away_score : Option Int
  starting_at : Nat
deriving DecidableEq

/-- A single trailing-form entry. -/
inductive FormRes where
  | W
  | D
  | L
deriving DecidableEq

/-- `_result_for_team`: the match outcome from `team_id`'s perspective, none
when a score is missing or the team took part on neither side. -/
def _result_for_team (home_id away_id : Nat) (hs as_ : Option Int) (team_id : Nat) :
    Option FormRes :=
  match hs, as_ with
  | some h, some a =>
    if team_id = home_id then
      some (if h > a then .W else if h < a then .L else .D)
    else if team_id = away_id then
      some (if a > h then .W else if a < h then .L else .D)
    else none
  | _, _ => none

/-- The per-team slice of `latest_by_team`: rows with a missing score are
skipped, and each remaining row is appended under its home id and under its
away id, preserving the fetch order. -/
def teamMatchList (rows : List MatchRow) (team_id : Nat) : List MatchRow :=
  (rows.filter (fun g => g.home_score.isSome && g.away_score.isSome)).flatMap
    (fun g =>
      (if g.home_id = team_id then [g] else []) ++
        (if g.away_id = team_id then [g] else []))

/-- The W/D/L sequence of a fixture list from one team's perspective. -/
def resultSeq (fixtures : List MatchRow) (team_id : Nat) : List FormRes :=
  fixtures.filterMap
    (fun g => _result_for_team g.home_id g.away_id g.home_score g.away_score team_id)

/-- Python's `seq[-n:]`. -/
def lastN (n : Nat) (l : List FormRes) : List FormRes := l.drop (l.length - n)

/-- `_last5_for_team`: walk the given fixture list in reverse, collect the
results, and keep the last five.  Its docstring assumes the list arrives
newest-first. -/
def _last5_for_team (fixtures : List MatchRow) (team_id : Nat) : List FormRes :=
  lastN 5 (resultSeq fixtures.reverse team_id)

/-- The `last5_form` stored by `build_league_standings_for_season` for a team:
its rows are fetched `ORDER BY starting_at DESC`, so the argument list is
newest-first. -/
def leagueLast5 (rowsDesc : List MatchRow) (team_id : Nat) : List FormRes :=
  _last5_for_team (teamMatchList rowsDesc team_id) team_id

/-- The `last5_form` stored by `build_euro_phase_standings_for_season_db` for
a team: its rows are fetched `ORDER BY starting_at ASC` (oldest first) and its
`_agg` passes the per-team slice straight to `_last5_for_team`. -/
def euroLast5 (rowsAsc : List MatchRow) (team_id : Nat) : List FormRes :=
  _last5_for_team (teamMatchList rowsAsc team_id) team_id

/-- Modelled from the spec: "take the most recent 5 completed matches for the
team in chronological order (oldest-to-newest within the slice), mapped to
W|D|L from that team's perspective", stated over the chronological
(oldest-first) fixture list. -/
def specTrailingForm (rowsAsc : List MatchRow) (team_id : Nat) : List FormRes :=
  lastN 5 (resultSeq (teamMatchList rowsAsc team_id) team_id)

/-- Six completed matches of team 1 in chronological order; team 1's results
are L, D, W, W, W, W. -/
def euroGamesAsc : List MatchRow :=
  [⟨1, 2, some 0, some 1, 1⟩,
   ⟨1, 3, some 1, some 1, 2⟩,
   ⟨1, 4, some 2, some 0, 3⟩,
   ⟨1, 5, some 2, some 0, 4⟩,
   ⟨1, 6, some 2, some 0, 5⟩,
   ⟨1, 7, some 2, some 0, 6⟩]

/-- One standings row as accumulated by the aggregation dict in
standings_loader.py (`pos` is filled in by `_rank_rows`). -/
structure SRow where
  team_id : Nat
  mp : Int
  w : Int
  d : Int
  l : Int
  gf : Int
  ga : Int
  gd : Int
  pts : Int
  pos : Nat
deriving DecidableEq

/-- The defaultdict seed row. -/
def zeroRow : SRow := ⟨0, 0, 0, 0, 0, 0, 0, 0, 0, 0⟩

/-- `agg[tid]["team_id"] = tid; mp += 1; gf += ...; ga += ...` for one side. -/
def statTouch (m : Nat → SRow) (tid : Nat) (gfd gad : Int) : Nat → SRow :=
  fun t =>
    if t = tid then
      { m tid with team_id := tid, mp := (m tid).mp + 1,
                   gf := (m tid).gf + gfd, ga := (m tid).ga + gad }
    else m t

/-- `agg[tid]["w"] += 1; agg[tid]["pts"] += 3`. -/
def addWin (m : Nat → SRow) (tid : Nat) : Nat → SRow :=
  fun t => if t = tid then { m tid with w := (m tid).w + 1, pts := (m tid).pts + 3 } else m t

/-- `agg[tid]["d"] += 1; agg[tid]["pts"] += 1`. -/
def addDraw (m : Nat → SRow) (tid : Nat) : Nat → SRow :=
  fun t => if t = tid then { m tid with d := (m tid).d + 1, pts := (m tid).pts + 1 } else m t

/-- `agg[tid]["l"] += 1`. -/
def addLoss (m : Nat → SRow) (tid : Nat) : Nat → SRow :=
  fun t => if t = tid then { m tid with l := (m tid).l + 1 } else m t

/-- One iteration of the standings aggregation loop: rows with a missing
score are skipped; both sides get matches-played and goal tallies, then
win/draw/loss counts and points are credited. -/
def stepFixture (m : Nat → SRow) (g : MatchRow) : Nat → SRow :=
  match g.home_score, g.away_score with
  | some hs, some as_ =>
    if hs > as_ then
      addLoss (addWin (statTouch (statTouch m g.home_id hs as_) g.away_id as_ hs) g.home_id)
        g.away_id
    else if hs < as_ then
      addLoss (addWin (statTouch (statTouch m g.home_id hs as_) g.away_id as_ hs) g.away_id)
        g.home_id
    else
      addDraw (addDraw (statTouch (statTouch m g.home_id hs as_) g.away_id as_ hs) g.home_id)
        g.away_id
  | _, _ => m

/-- The whole aggregation loop over the fetched rows. -/
def aggFixtures (rows : List MatchRow) : Nat → SRow :=
  rows.foldl stepFixture (fun _ => zeroRow)

/-- Touching a defaultdict key: appended on first touch, order preserved. -/
def touchKey (acc : List Nat) (t : Nat) : List Nat :=
  if acc.contains t then acc else acc ++ [t]

/-- The aggregation dict's key list in first-touch order (home side first per
fixture; fixtures with a missing score skipped). -/
def teamsOf (rows : List MatchRow) : List Nat :=
  rows.foldl
    (fun acc g =>
      match g.home_score, g.away_score with
      | some _, some _ => touchKey (touchKey acc g.home_id) g.away_id
      | _, _ => acc)
    []

/-- The post-loop `r["gd"] = r["gf"] - r["ga"]`. -/
def setGd (r : SRow) : SRow := { r with gd := r.gf - r.ga }

/-- The sort key of `_rank_rows`, `(-pts, -gd, -gf, team_id)` ascending, as a
lexicographic relation: points descending, then goal difference descending,
then goals-for descending, then team id ascending. -/
def rankLE (r s : SRow) : Prop :=
  s.pts < r.pts ∨ (s.pts = r.pts ∧ (s.gd < r.gd ∨ (s.gd = r.gd ∧
    (s.gf < r.gf ∨ (s.gf = r.gf ∧ r.team_id ≤ s.team_id)))))

instance : DecidableRel rankLE := fun r s => by
  unfold rankLE; infer_instance

instance : IsTotal SRow rankLE := ⟨by intro a b; unfold rankLE; omega⟩

instance : IsTrans SRow rankLE := ⟨by intro a b c; unfold rankLE; omega⟩

/-- `enumerate(ranked, start=i)` position assignment. -/
def assignPos : Nat → List SRow → List SRow
  | _, [] => []
  | i, r :: rest => { r with pos := i } :: assignPos (i + 1) rest

/-- `_rank_rows`: python's stable sort by key `(-pts, -gd, -gf, team_id)`,
modelled as a stable insertion sort by the corresponding lexicographic
relation, then positions 1, 2, ... assigned in order. -/
def _rank_rows (rows : List SRow) : List SRow :=
  assignPos 1 (List.insertionSort rankLE rows)

/-- `build_league_standings_for_season`'s computation of the ranked table
from the fetched rows — the part between fetch and upsert. -/
def build_league_table (rows : List MatchRow) : List SRow :=
  _rank_rows ((teamsOf rows).map (fun t => setGd (aggFixtures rows t)))

/-! ## Derived-table input filters (C7) -/

/-- A fixtures-table row as seen by the two derived-table queries. -/
structure FixtureRow where
  league_id : Nat
  season_id : Nat
  status : String
  competition_type : String
  home_score : Option Int
  away_score : Option Int
deriving DecidableEq

/-- The WHERE clause of SQL_SELECT_FIXTURES_FOR_LEAGUE_SEASON in
loaders/points_pace.py: league, season, competition_type='league' and both
scores non-null — no condition on `status`. -/
def pace_selects (lid sid : Nat) (f : FixtureRow) : Bool :=
  f.league_id == lid && f.season_id == sid && f.competition_type == "league" &&
    f.home_score.isSome && f.away_score.isSome

/-- The fixtures `build_league_standings_for_season` actually aggregates: the
SQL filters league, season and status='past'; the python loop then skips rows
with a null score. -/
def standings_uses (lid sid : Nat) (f : FixtureRow) : Bool :=
  f.league_id == lid && f.season_id == sid && f.status == "past" &&
    f.home_score.isSome && f.away_score.isSome

/-- Modelled from the spec: the claimed input filter — status 'past' and a
non-null regulation score pair, for the given league and season. -/
def claimed_input_filter (lid sid : Nat) (f : FixtureRow) : Bool :=
  f.league_id == lid && f.season_id == sid && f.status == "past" &&
    f.home_score.isSome && f.away_score.isSome

/-- A live fixture carrying a recorded score. -/
def liveFixtureEx : FixtureRow := ⟨8, 100, "live", "league", some 1, some 0⟩

/-! ## Knockout ties (`build_knockout_brackets_for_season` and SQL_UPSERT_TIE
in loaders/standings_loader.py; `finalize_knockout_winners` in
loaders/big5_bootstrap.py) -/

/-- One fetched knockout fixture row. -/
structure LegRow where
  fixture_id : Nat
  home_team_id : Nat
  away_team_id : Nat
  home_score : Option Int
  away_score : Option Int
  home_penalty_score : Option Int
  away_penalty_score : Option Int
  leg_number : Nat
  starting_at : Nat
deriving DecidableEq

/-- One grouped tie as assembled by `build_knockout_brackets_for_season`: the
league, the parsed season start year, the normalized pair (team1 < team2 by
construction) and the group's games. -/
structure TieInput where
  league_id : Nat
  start_year : Option Int
  team1 : Nat
  team2 : Nat
  games : List LegRow
deriving DecidableEq

/-- The leg sort key `(starting_at, leg_number, fixture_id)`, lexicographic. -/
def legLE (x y : LegRow) : Prop :=
  x.starting_at < y.starting_at ∨ (x.starting_at = y.starting_at ∧
    (x.leg_number < y.leg_number ∨ (x.leg_number = y.leg_number ∧
      x.fixture_id ≤ y.fixture_id)))

instance : DecidableRel legLE := fun x y => by
  unfold legLE; infer_instance

instance : IsTotal LegRow legLE := ⟨by intro a b; unfold legLE; omega⟩

instance : IsTrans LegRow legLE := ⟨by intro a b c; unfold legLE; omega⟩

/-- `games.sort(key=lambda x: (x[8], x[7], x[0]))`. -/
def orderedLegs (ti : TieInput) : List LegRow := List.insertionSort legLE ti.games

/-- `YEAR(...) <= 2020` over a nullable year (NULL compares to nothing). -/
def yearLE2020 : Option Int → Bool
  | some y => decide (y ≤ 2020)
  | none => false

/-- The away-goals gate of the build:
`league_id in (2, 5, 2286) and start_year is not None and start_year <= 2020`. -/
def awayGoalsGate (league_id : Nat) (start_year : Option Int) : Bool :=
  (league_id == 2 || league_id == 5 || league_id == 2286) && yearLE2020 start_year

/-- `g1` in the per-game loop: team1's goals in this leg,
`(hs if team1_home else as_) or 0`. -/
def tieG1 (t1 : Nat) (g : LegRow) : Int :=
  if g.home_team_id = t1 then g.home_score.getD 0 else g.away_score.getD 0

/-- `g2` in the per-game loop: team2's goals in this leg. -/
def tieG2 (t1 : Nat) (g : LegRow) : Int :=
  if g.home_team_id = t1 then g.away_score.getD 0 else g.home_score.getD 0

/-- Whether a leg carries a penalty score on at least one side:
`(p_h is not None) or (p_a is not None)`. -/
def hasPen (g : LegRow) : Bool :=
  g.home_penalty_score.isSome || g.away_penalty_score.isSome

/-- Accumulated per-tie quantities. -/
structure TieStats where
  agg1 : Int
  agg2 : Int
  away1 : Int
  away2 : Int
  lastPen : Option LegRow
deriving DecidableEq

/-- One iteration of the per-game loop in `build_knockout_brackets_for_season`:
aggregate goals for both teams, away-goal tallies under the gate, and the
running last leg with a recorded penalty score. -/
def tieStep (t1 lid : Nat) (sy : Option Int) (st : TieStats) (g : LegRow) : TieStats :=
  { agg1 := st.agg1 + tieG1 t1 g
    agg2 := st.agg2 + tieG2 t1 g
    away1 :=
      if awayGoalsGate lid sy ∧ ¬g.home_team_id = t1 then st.away1 + tieG1 t1 g else st.away1
    away2 :=
      if awayGoalsGate lid sy ∧ g.home_team_id = t1 then st.away2 + tieG2 t1 g else st.away2
    lastPen := if hasPen g then some g else st.lastPen }

/-- The tie statistics over the ordered legs. -/
def tieStats (ti : TieInput) : TieStats :=
  (orderedLegs ti).foldl (tieStep ti.team1 ti.league_id ti.start_year) ⟨0, 0, 0, 0, none⟩

/-- `pen1 = p_h if h == t1 else p_a`. -/
def pen1Of (t1 : Nat) (g : LegRow) : Option Int :=
  if g.home_team_id = t1 then g.home_penalty_score else g.away_penalty_score

/-- `pen2 = p_a if h == t1 else p_h`. -/
def pen2Of (t1 : Nat) (g : LegRow) : Option Int :=
  if g.home_team_id = t1 then g.away_penalty_score else g.home_penalty_score

/-- The winner chain of `build_knockout_brackets_for_season`: aggregate score,
then the gated away-goals rule, then the last recorded penalty score (missing
sides read as 0). -/
def tieWinner (ti : TieInput) : Option Nat :=
  if (tieStats ti).agg1 ≠ (tieStats ti).agg2 then
    some (if (tieStats ti).agg1 > (tieStats ti).agg2 then ti.team1 else ti.team2)
  else if awayGoalsGate ti.league_id ti.start_year ∧ (tieStats ti).away1 ≠ (tieStats ti).away2 then
    some (if (tieStats ti).away1 > (tieStats ti).away2 then ti.team1 else ti.team2)
  else
    match (tieStats ti).lastPen with
    | none => none
    | some g =>
      if (pen1Of ti.team1 g).getD 0 ≠ (pen2Of ti.team1 g).getD 0 then
        some (if (pen1Of ti.team1 g).getD 0 > (pen2Of ti.team1 g).getD 0 then ti.team1
              else ti.team2)
      else none

/-- A stored `knockout_ties` row (the claim-relevant columns). -/
structure TieRow where
  league_id : Nat
  season_id : Nat
  round_name : String
  team1_id : Nat
  team2_id : Nat
  leg1_fixture_id : Option Nat
  leg2_fixture_id : Option Nat
  aggregate_team1 : Int
  aggregate_team2 : Int
  winner_team_id : Option Nat
deriving DecidableEq

/-- The row `build_knockout_brackets_for_season` computes for one tie:
`l1 = games[0] if len(games) >= 1`, `l2 = games[-1] if len(games) >= 2`. -/
def buildTieRow (season_id : Nat) (round_name : String) (ti : TieInput) : TieRow :=
  { league_id := ti.league_id
    season_id := season_id
    round_name := round_name
    team1_id := ti.team1
    team2_id := ti.team2
    leg1_fixture_id := ((orderedLegs ti).head?).map LegRow.fixture_id
    leg2_fixture_id :=
      if 2 ≤ (orderedLegs ti).length then ((orderedLegs ti).getLast?).map LegRow.fixture_id
      else none
    aggregate_team1 := (tieStats ti).agg1
    aggregate_team2 := (tieStats ti).agg2
    winner_team_id := tieWinner ti }

/-- SQL_UPSERT_TIE: on key collision every non-key column, `winner_team_id`
included, is overwritten with the freshly computed VALUES, so the stored row
always becomes the fresh row. -/
def upsertTie (_stored : Option TieRow) (fresh : TieRow) : TieRow := fresh

/-- The first UPDATE of `finalize_knockout_winners` (penalty scores on the
second leg): fills a null winner when the aggregates are equal and the joined
leg-2 fixture carries both penalty scores. -/
def finalizePenLeg2 (fix : Nat → Option LegRow) (kt : TieRow) : TieRow :=
  if kt.winner_team_id = none ∧ kt.aggregate_team1 = kt.aggregate_team2 then
    match kt.leg2_fixture_id with
    | none => kt
    | some fid2 =>
      match fix fid2 with
      | none => kt
      | some f2 =>
        match f2.home_penalty_score, f2.away_penalty_score with
        | some ph, some pa =>
          if ph > pa then { kt with winner_team_id := some f2.home_team_id }
          else if ph < pa then { kt with winner_team_id := some f2.away_team_id }
          else kt
        | _, _ => kt
  else kt

/-- The second UPDATE (penalty scores, single-leg ties, joining leg 1). -/
def finalizePenSingle (fix : Nat → Option LegRow) (kt : TieRow) : TieRow :=
  if kt.winner_team_id = none ∧ kt.aggregate_team1 = kt.aggregate_team2 ∧
      kt.leg2_fixture_id = none then
    match kt.leg1_fixture_id with
    | none => kt
    | some fid1 =>
      match fix fid1 with
      | none => kt
      | some f1 =>
        match f1.home_penalty_score, f1.away_penalty_score with
        | some ph, some pa =>
          if ph > pa then { kt with winner_team_id := some f1.home_team_id }
          else if ph < pa then { kt with winner_team_id := some f1.away_team_id }
          else kt
        | _, _ => kt
  else kt

/-- SQL three-valued `x > y` over nullable ints: NULL compares to nothing. -/
def sqlGt : Option Int → Option Int → Bool
  | some a, some b => decide (b < a)
  | _, _ => false

/-- The away-goal CASE of the third UPDATE for one team: the away score of the
first of (leg1, leg2) in which the team is the away side, ELSE 0. -/
def finalizeAwayVal (t : Nat) (l1 l2 : LegRow) : Option Int :=
  if l1.away_team_id = t then l1.away_score
  else if l2.away_team_id = t then l2.away_score
  else some 0

/-- The third UPDATE (the away-goals backfill): league 2 or 5,
`YEAR(seasons.starting_at) <= 2020`, both leg fixtures joined. -/
def finalizeAway (fix : Nat → Option LegRow) (seasonYear : Option Int) (kt : TieRow) : TieRow :=
  if kt.winner_team_id = none ∧ kt.aggregate_team1 = kt.aggregate_team2 ∧
      (kt.league_id = 2 ∨ kt.league_id = 5) ∧ yearLE2020 seasonYear then
    match kt.leg1_fixture_id, kt.leg2_fixture_id with
    | some fid1, some fid2 =>
      match fix fid1, fix fid2 with
      | some l1, some l2 =>
        if sqlGt (finalizeAwayVal kt.team1_id l1 l2) (finalizeAwayVal kt.team2_id l1 l2) then
          { kt with winner_team_id := some kt.team1_id }
        else if sqlGt (finalizeAwayVal kt.team2_id l1 l2) (finalizeAwayVal kt.team1_id l1 l2) then
          { kt with winner_team_id := some kt.team2_id }
        else kt
      | _, _ => kt
    | _, _ => kt
  else kt

/-- `finalize_knockout_winners`: the three UPDATE statements in execution
order. -/
def finalizeTie (fix : Nat → Option LegRow) (seasonYear : Option Int) (kt : TieRow) : TieRow :=
  finalizeAway fix seasonYear (finalizePenSingle fix (finalizePenLeg2 fix kt))

/-- Modelled from the spec: a team's goals scored while playing away across
the tie (missing scores read as 0, as in the build). -/
def awayGoalsOf (games : List LegRow) (t : Nat) : Int :=
  (games.map (fun g => if g.away_team_id = t then g.away_score.getD 0 else 0)).sum

/-- C1 scenario: a "Final" in league 2 played three times between teams 1 and
2 — 0–1, then 0–1 with the sides swapped, then 0–0.  Aggregates are 1–1 and
each side scored one away goal, so the build decides nothing. -/
def c1Games : List LegRow :=
  [⟨101, 1, 2, some 0, some 1, none, none, 1, 10⟩,
   ⟨102, 2, 1, some 0, some 1, none, none, 2, 20⟩,
   ⟨103, 1, 2, some 0, some 0, none, none, 3, 30⟩]

/-- The C1 tie: league 2 (UCL), season start year 2020. -/
def c1Tie : TieInput := ⟨2, some 2020, 1, 2, c1Games⟩

/-- The fixtures table for the C1 scenario. -/
def c1Fix : Nat → Option LegRow :=
  fun fid => c1Games.find? (fun g => g.fixture_id == fid)

/-- The row the build computes for the C1 tie. -/
def c1BuildRow : TieRow := buildTieRow 900 "Final" c1Tie

/-- C3 witness tie, the scenario of spec §8: leg 1 team 1 at home 2–1, leg 2
team 2 at home 1–0; aggregate 2–2, away goals 0–1, pre-2021 UEFA. -/
def c3Tie : TieInput :=
  ⟨2, some 2019, 1, 2,
   [⟨201, 1, 2, some 2, some 1, none, none, 1, 10⟩,
    ⟨202, 2, 1, some 1, some 0, none, none, 2, 20⟩]⟩

/-- C4 counterexample tie: a single-leg domestic-cup tie drawn 1–1 with a
penalty score recorded on one side only. -/
def c4OneSided : TieInput :=
  ⟨24, some 2023, 1, 2, [⟨301, 1, 2, some 1, some 1, some 3, none, 1, 10⟩]⟩

/-- C4 witness tie: a single-leg tie drawn 1–1 with a full 4–3 shootout. -/
def c4Pens : TieInput :=
  ⟨24, some 2023, 1, 2, [⟨401, 1, 2, some 1, some 1, some 4, some 3, 1, 10⟩]⟩

/-- A concrete `points_pace` store holding one row, used to instantiate the
upsert theorem. -/
def paceStoreEx : PaceStore :=
  fun k2 => if k2 = (8, 100, 10, 3) then some ⟨"2024-01-01 00:00:00", 30⟩ else none

/-! ## Theorems -/

/-- Helper: the 429-only run of the attempt loop never records an exception and
ends in the fresh after-retries error. -/
theorem getLoop_all429 (resp : Nat → Nat) (n : Nat) (h : ∀ i, i < n → resp i = 429) :
    ∀ k, k ≤ n → getLoop resp n k none = .error (.failedAfterRetries n) := by
  intro k
  induction k with
  | zero => intro _; rfl
  | succ m ih =>
    intro hm
    have hlt : n - (m + 1) < n := by omega
    have hr : resp (n - (m + 1)) = 429 := h _ hlt
    simp only [getLoop, hr, if_pos rfl]
    exact ih (by omega)

/-- C2: for an existing key, the points-pace upsert stores the max of the old
and new cumulative values (so a lower incoming value leaves the stored value
unchanged, and the stored value never decreases), while the match date is
overwritten with the newly supplied one. -/
theorem points_pace_upsert_monotone (st : PaceStore) (k : Nat × Nat × Nat × Nat)
    (d : String) (c : Int) (v : PaceVal) (h : st k = some v) :
    upsertPace st k d c k = some ⟨d, max v.cumulative_points c⟩ ∧
    (c < v.cumulative_points → upsertPace st k d c k = some ⟨d, v.cumulative_points⟩) ∧
    v.cumulative_points ≤ max v.cumulative_points c := by
  refine ⟨?_, ?_, le_max_left _ _⟩
  · simp [upsertPace, h]
  · intro hc
    simp [upsertPace, h, max_eq_left hc.le]

/-- Witness for C2: re-upserting the stored row (cumulative 30) with the lower
value 20 keeps 30 and refreshes the date. -/
theorem points_pace_upsert_monotone_witness :
    upsertPace paceStoreEx (8, 100, 10, 3) "2024-02-02 00:00:00" 20 (8, 100, 10, 3)
      = some ⟨"2024-02-02 00:00:00", 30⟩ :=
  (points_pace_upsert_monotone paceStoreEx (8, 100, 10, 3) "2024-02-02 00:00:00" 20
      ⟨"2024-01-01 00:00:00", 30⟩ rfl).2.1 (by decide)

/-- C10 counterexample: `classify_competition` maps the sub-type
"domestic_cup" to the string "cup", which is not one of
league / domestic_cup / europe, refuting the claim as stated. -/
theorem classify_competition_cup_counterexample :
    classify_competition (some "domestic_cup") = "cup" ∧
    ¬("cup" = "league" ∨ "cup" = "domestic_cup" ∨ "cup" = "europe") := by
  exact ⟨rfl, by decide⟩

/-- C10 (amended): every classifier is total with default "league" and a
three-element range; the loader classifiers range over
league / domestic_cup / europe (with the static id-set fallback), while the
helpers classifier ranges over league / cup / europe. -/
theorem classification_total (sub_type : Option String) (league_id : Option Nat)
    (cached_sub_type : Option String) :
    _map_league_sub_type_to_competition sub_type ∈ (["league", "domestic_cup", "europe"] : List String) ∧
    classify_comp_by_league_id league_id cached_sub_type ∈ (["league", "domestic_cup", "europe"] : List String) ∧
    classify_competition sub_type ∈ (["league", "cup", "europe"] : List String) ∧
    _map_league_sub_type_to_competition none = "league" ∧
    classify_competition none = "league" := by
  refine ⟨?_, ?_, ?_, rfl, rfl⟩
  · unfold _map_league_sub_type_to_competition
    split_ifs <;> simp
  · cases league_id with
    | none => simp [classify_comp_by_league_id]
    | some lid =>
      simp only [classify_comp_by_league_id, _map_league_sub_type_to_competition]
      split_ifs <;> simp
  · cases sub_type with
    | none => simp [classify_competition]
    | some s0 =>
      simp only [classify_competition]
      split_ifs <;> simp

/-- C9 counterexample: when every request receives HTTP 429, `_get` exhausts
its six attempts and raises the fresh "GET failed after ... retries" error, a
different error value from any HTTP-status exception, refuting the claim that
the original error propagates. -/
theorem sportmonks_get_all_429_counterexample :
    sportmonks_get (fun _ => 429) 6 = .error (.failedAfterRetries 6) ∧
    GetErr.failedAfterRetries 6 ≠ GetErr.httpStatus 429 := by
  exact ⟨rfl, by decide⟩

/-- C9 (amended): when every attempt of a GET receives HTTP 429 the client
retries with backoff up to the max-retry ceiling (default 6 attempts), and once
the ceiling is exhausted it raises a fresh "GET failed after N retries" error:
no 429 response is ever captured as an exception, so no original error exists
to propagate. -/
theorem sportmonks_get_429_exhaustion (resp : Nat → Nat) (n : Nat)
    (h : ∀ i, i < n → resp i = 429) :
    sportmonks_get resp n = .error (.failedAfterRetries n) :=
  getLoop_all429 resp n h n le_rfl

/-- Witness for C9 at the default ceiling of 6 attempts. -/
theorem sportmonks_get_429_exhaustion_witness :
    sportmonks_get (fun _ => 429) 6 = .error (.failedAfterRetries 6) :=
  sportmonks_get_429_exhaustion (fun _ => 429) 6 (fun _ _ => rfl)

/-- Points invariant: preserved by the statistics touch. -/
theorem pts_inv_statTouch (m : Nat → SRow) (tid : Nat) (a b : Int)
    (h : ∀ t, (m t).pts = 3 * (m t).w + (m t).d) :
    ∀ t, ((statTouch m tid a b) t).pts =
      3 * ((statTouch m tid a b) t).w + ((statTouch m tid a b) t).d := by
  intro t; unfold statTouch; split <;> simp [h]

/-- Points invariant: preserved by crediting a win. -/
theorem pts_inv_addWin (m : Nat → SRow) (tid : Nat)
    (h : ∀ t, (m t).pts = 3 * (m t).w + (m t).d) :
    ∀ t, ((addWin m tid) t).pts = 3 * ((addWin m tid) t).w + ((addWin m tid) t).d := by
  intro t; unfold addWin; split
  · have := h tid; simp; omega
  · exact h t

/-- Points invariant: preserved by crediting a draw. -/
theorem pts_inv_addDraw (m : Nat → SRow) (tid : Nat)
    (h : ∀ t, (m t).pts = 3 * (m t).w + (m t).d) :
    ∀ t, ((addDraw m tid) t).pts = 3 * ((addDraw m tid) t).w + ((addDraw m tid) t).d := by
  intro t; unfold addDraw; split
  · have := h tid; simp; omega
  · exact h t

/-- Points invariant: preserved by crediting a loss. -/
theorem pts_inv_addLoss (m : Nat → SRow) (tid : Nat)
    (h : ∀ t, (m t).pts = 3 * (m t).w + (m t).d) :
    ∀ t, ((addLoss m tid) t).pts = 3 * ((addLoss m tid) t).w + ((addLoss m tid) t).d := by
  intro t; unfold addLoss; split
  · have := h tid; simp; omega
  · exact h t

/-- Points invariant: preserved by one aggregation step. -/
theorem pts_inv_stepFixture (m : Nat → SRow) (g : MatchRow)
    (h : ∀ t, (m t).pts = 3 * (m t).w + (m t).d) :
    ∀ t, ((stepFixture m g) t).pts =
      3 * ((stepFixture m g) t).w + ((stepFixture m g) t).d := by
  obtain ⟨hid, aid, hsc, asc, dt⟩ := g
  cases hsc with
  | none => cases asc <;> exact h
  | some hs =>
    cases asc with
    | none => exact h
    | some as_ =>
      unfold stepFixture
      dsimp only
      split_ifs
      · exact pts_inv_addLoss _ _ (pts_inv_addWin _ _
          (pts_inv_statTouch _ _ _ _ (pts_inv_statTouch _ _ _ _ h)))
      · exact pts_inv_addLoss _ _ (pts_inv_addWin _ _
          (pts_inv_statTouch _ _ _ _ (pts_inv_statTouch _ _ _ _ h)))
      · exact pts_inv_addDraw _ _ (pts_inv_addDraw _ _
          (pts_inv_statTouch _ _ _ _ (pts_inv_statTouch _ _ _ _ h)))

/-- Points invariant: preserved by the whole aggregation loop. -/
theorem pts_inv_foldl (rows : List MatchRow) :
    ∀ (m : Nat → SRow), (∀ t, (m t).pts = 3 * (m t).w + (m t).d) →
      ∀ t, ((rows.foldl stepFixture m) t).pts =
        3 * ((rows.foldl stepFixture m) t).w + ((rows.foldl stepFixture m) t).d := by
  induction rows with
  | nil => intro m hm; simpa using hm
  | cons gg tl ih =>
    intro m hm
    simp only [List.foldl_cons]
    exact ih _ (pts_inv_stepFixture m gg hm)

/-- Points invariant for the final aggregation state. -/
theorem aggFixtures_pts_inv (rows : List MatchRow) (t : Nat) :
    ((aggFixtures rows) t).pts = 3 * ((aggFixtures rows) t).w + ((aggFixtures rows) t).d :=
  pts_inv_foldl rows _ (fun _ => by simp [zeroRow]) t

/-- `assignPos` keeps the list length. -/
theorem assignPos_length : ∀ (i : Nat) (l : List SRow), (assignPos i l).length = l.length := by
  intro i l
  induction l generalizing i with
  | nil => rfl
  | cons r tl ih => simp [assignPos, ih]

/-- The positions written by `assignPos` are `i, i+1, ...` in order. -/
theorem assignPos_map_pos :
    ∀ (i : Nat) (l : List SRow), (assignPos i l).map SRow.pos = List.range' i l.length := by
  intro i l
  induction l generalizing i with
  | nil => rfl
  | cons r tl ih => simp [assignPos, ih, List.range']

/-- Every element of `assignPos i l` is an element of `l` with its `pos`
overwritten. -/
theorem mem_assignPos : ∀ (i : Nat) (l : List SRow) (r : SRow),
    r ∈ assignPos i l → ∃ s ∈ l, ∃ j, r = { s with pos := j } := by
  intro i l
  induction l generalizing i with
  | nil => intro r hr; simp [assignPos] at hr
  | cons a tl ih =>
    intro r hr
    simp only [assignPos, List.mem_cons] at hr
    rcases hr with rfl | hr
    · exact ⟨a, List.mem_cons_self a tl, i, rfl⟩
    · rcases ih (i + 1) r hr with ⟨s, hs, j, rfl⟩
      exact ⟨s, List.mem_cons_of_mem _ hs, j, rfl⟩

/-- A pairwise relation that ignores `pos` survives `assignPos`. -/
theorem pairwise_assignPos (P : SRow → SRow → Prop)
    (hP : ∀ a b i j, P a b → P { a with pos := i } { b with pos := j }) :
    ∀ (i : Nat) (l : List SRow), l.Pairwise P → (assignPos i l).Pairwise P := by
  intro i l
  induction l generalizing i with
  | nil => intro _; exact List.Pairwise.nil
  | cons a tl ih =>
    intro hp
    rcases List.pairwise_cons.mp hp with ⟨ha, htl⟩
    refine List.pairwise_cons.mpr ⟨?_, ih (i + 1) htl⟩
    intro b hb
    rcases mem_assignPos (i + 1) tl b hb with ⟨s, hs, j, rfl⟩
    exact hP a s i j (ha s hs)

/-- `rankLE` does not look at `pos`. -/
theorem rankLE_pos_update (a b : SRow) (i j : Nat) (h : rankLE a b) :
    rankLE { a with pos := i } { b with pos := j } := h

/-- C5: every row of the standings table built from a list of fixtures
satisfies pts = 3·w + d and gd = gf − ga; the table is sorted by points
descending, then goal difference descending, then goals-for descending, then
team id ascending (the relation `rankLE`); and positions are assigned
1, 2, ... in that order. -/
theorem league_standings_table_correct (rows : List MatchRow) :
    (∀ r ∈ build_league_table rows, r.pts = 3 * r.w + r.d ∧ r.gd = r.gf - r.ga) ∧
    (build_league_table rows).Pairwise rankLE ∧
    (build_league_table rows).map SRow.pos =
      List.range' 1 (build_league_table rows).length := by
  refine ⟨?_, ?_, ?_⟩
  · intro r hr
    unfold build_league_table _rank_rows at hr
    rcases mem_assignPos _ _ r hr with ⟨s, hs, j, rfl⟩
    have hs2 : s ∈ (teamsOf rows).map (fun t => setGd (aggFixtures rows t)) :=
      (List.perm_insertionSort rankLE _).mem_iff.mp hs
    rcases List.mem_map.mp hs2 with ⟨t, _, rfl⟩
    constructor
    · simpa [setGd] using aggFixtures_pts_inv rows t
    · simp [setGd]
  · unfold build_league_table _rank_rows
    exact pairwise_assignPos rankLE rankLE_pos_update 1 _
      (List.sorted_insertionSort rankLE _)
  · unfold build_league_table _rank_rows
    rw [assignPos_map_pos, assignPos_length]

/-- Witness for C5 on a concrete fixture list. -/
theorem league_standings_table_correct_witness :
    (build_league_table euroGamesAsc).Pairwise rankLE :=
  (league_standings_table_correct euroGamesAsc).2.1

/-- C6: on six chronologically ordered completed matches of team 1 with
results L, D, W, W, W, W, the euro-phase build stores the team's FIRST five
matches in newest-to-oldest order, while the league build (whose rows arrive
newest-first) and the spec give the most recent five oldest-to-newest. -/
theorem euro_last5_takes_oldest_matches :
    euroLast5 euroGamesAsc 1 = [.W, .W, .W, .D, .L] ∧
    specTrailingForm euroGamesAsc 1 = [.D, .W, .W, .W, .W] ∧
    leagueLast5 euroGamesAsc.reverse 1 = [.D, .W, .W, .W, .W] ∧
    euroLast5 euroGamesAsc 1 ≠ specTrailingForm euroGamesAsc 1 := by
  refine ⟨rfl, rfl, rfl, by decide⟩

/-- C7: the points-pace fixture query carries no status filter — a live
fixture with a recorded score is selected for the points-pace computation even
though its status is not 'past' — while the standings build's effective filter
is exactly the claimed one. -/
theorem pace_query_ignores_status :
    pace_selects 8 100 liveFixtureEx = true ∧
    claimed_input_filter 8 100 liveFixtureEx = false ∧
    liveFixtureEx.status ≠ "past" ∧
    standings_uses 8 100 liveFixtureEx = false ∧
    (∀ lid sid f, standings_uses lid sid f = claimed_input_filter lid sid f) := by
  refine ⟨rfl, rfl, by decide, rfl, fun _ _ _ => rfl⟩

/-- The `away1` field of one tie step. -/
theorem tieStep_away1 (t1 lid : Nat) (sy : Option Int) (st : TieStats) (g : LegRow) :
    (tieStep t1 lid sy st g).away1 =
      if awayGoalsGate lid sy ∧ ¬g.home_team_id = t1 then st.away1 + tieG1 t1 g
      else st.away1 := rfl

/-- The `away2` field of one tie step. -/
theorem tieStep_away2 (t1 lid : Nat) (sy : Option Int) (st : TieStats) (g : LegRow) :
    (tieStep t1 lid sy st g).away2 =
      if awayGoalsGate lid sy ∧ g.home_team_id = t1 then st.away2 + tieG2 t1 g
      else st.away2 := rfl

/-- Away-goal totals unfold one game at a time. -/
theorem awayGoalsOf_cons (g : LegRow) (tl : List LegRow) (t : Nat) :
    awayGoalsOf (g :: tl) t =
      (if g.away_team_id = t then g.away_score.getD 0 else 0) + awayGoalsOf tl t := by
  simp [awayGoalsOf]

/-- Under the gate, the loop's away tallies are the away-goal sums of the two
teams, provided every game is between the two teams of the tie. -/
theorem foldl_away (t1 t2 lid : Nat) (sy : Option Int)
    (hgate : awayGoalsGate lid sy = true) (hne : t1 ≠ t2) :
    ∀ (l : List LegRow) (st : TieStats),
      (∀ g ∈ l, (g.home_team_id = t1 ∧ g.away_team_id = t2) ∨
        (g.home_team_id = t2 ∧ g.away_team_id = t1)) →
      (l.foldl (tieStep t1 lid sy) st).away1 = st.away1 + awayGoalsOf l t1 ∧
      (l.foldl (tieStep t1 lid sy) st).away2 = st.away2 + awayGoalsOf l t2 := by
  intro l
  induction l with
  | nil => intro st _; constructor <;> simp [awayGoalsOf]
  | cons g tl ih =>
    intro st hwf
    have hg := hwf g (List.mem_cons_self g tl)
    have htl := fun g2 hg2 => hwf g2 (List.mem_cons_of_mem g hg2)
    simp only [List.foldl_cons]
    rcases ih (tieStep t1 lid sy st g) htl with ⟨ha1, ha2⟩
    rcases hg with ⟨hh, haw⟩ | ⟨hh, haw⟩
    · constructor
      · rw [ha1, tieStep_away1, if_neg (fun hc => hc.2 hh), awayGoalsOf_cons g tl t1,
          if_neg (show ¬g.away_team_id = t1 by rw [haw]; exact fun he => hne he.symm)]
        omega
      · have hg2 : tieG2 t1 g = g.away_score.getD 0 := by unfold tieG2; rw [if_pos hh]
        rw [ha2, tieStep_away2, if_pos ⟨hgate, hh⟩, awayGoalsOf_cons g tl t2,
          if_pos haw, hg2]
        omega
    · have hnh : ¬g.home_team_id = t1 := by rw [hh]; exact fun he => hne he.symm
      constructor
      · have hg1 : tieG1 t1 g = g.away_score.getD 0 := by unfold tieG1; rw [if_neg hnh]
        rw [ha1, tieStep_away1, if_pos ⟨hgate, hnh⟩, awayGoalsOf_cons g tl t1,
          if_pos haw, hg1]
        omega
      · rw [ha2, tieStep_away2, if_neg (fun hc => hnh hc.2), awayGoalsOf_cons g tl t2,
          if_neg (show ¬g.away_team_id = t2 by rw [haw]; exact hne)]
        omega

/-- Sorting the legs does not change away-goal totals. -/
theorem awayGoalsOf_perm (ti : TieInput) (t : Nat) :
    awayGoalsOf (orderedLegs ti) t = awayGoalsOf ti.games t := by
  unfold awayGoalsOf orderedLegs
  exact ((List.perm_insertionSort legLE ti.games).map _).sum_eq

/-- Under the gate, the tie statistics' away tallies are the two teams'
away-goal sums over the tie's games. -/
theorem tieStats_away (ti : TieInput)
    (hwf : ∀ g ∈ ti.games, (g.home_team_id = ti.team1 ∧ g.away_team_id = ti.team2) ∨
      (g.home_team_id = ti.team2 ∧ g.away_team_id = ti.team1))
    (hne : ti.team1 ≠ ti.team2)
    (hgate : awayGoalsGate ti.league_id ti.start_year = true) :
    (tieStats ti).away1 = awayGoalsOf ti.games ti.team1 ∧
    (tieStats ti).away2 = awayGoalsOf ti.games ti.team2 := by
  have hwf2 : ∀ g ∈ orderedLegs ti, (g.home_team_id = ti.team1 ∧ g.away_team_id = ti.team2) ∨
      (g.home_team_id = ti.team2 ∧ g.away_team_id = ti.team1) :=
    fun g hg => hwf g ((List.mem_insertionSort legLE).mp hg)
  rcases foldl_away ti.team1 ti.team2 ti.league_id ti.start_year hgate hne
    (orderedLegs ti) ⟨0, 0, 0, 0, none⟩ hwf2 with ⟨h1, h2⟩
  unfold tieStats
  rw [h1, h2, awayGoalsOf_perm, awayGoalsOf_perm]
  constructor <;> exact zero_add _

/-- The loop's last-penalty slot is the last game of the list carrying any
penalty score, falling back to the incoming state. -/
theorem foldl_lastPen (t1 lid : Nat) (sy : Option Int) :
    ∀ (l : List LegRow) (st : TieStats),
      (l.foldl (tieStep t1 lid sy) st).lastPen =
        (l.reverse.find? hasPen).or st.lastPen := by
  intro l
  induction l with
  | nil => intro st; rfl
  | cons g tl ih =>
    intro st
    simp only [List.foldl_cons, List.reverse_cons, List.find?_append]
    rw [ih]
    by_cases hp : hasPen g = true
    · have h1 : List.find? hasPen [g] = some g := by simp [List.find?, hp]
      have h2 : (tieStep t1 lid sy st g).lastPen = some g := by
        show (if hasPen g then some g else st.lastPen) = some g
        rw [if_pos hp]
      rw [h1, h2]
      cases tl.reverse.find? hasPen <;> rfl
    · have h1 : List.find? hasPen [g] = none := by
        simp [List.find?, Bool.of_not_eq_true hp]
      have h2 : (tieStep t1 lid sy st g).lastPen = st.lastPen := by
        show (if hasPen g then some g else st.lastPen) = st.lastPen
        rw [if_neg hp]
      rw [h1, h2]
      cases tl.reverse.find? hasPen <;> rfl

/-- The tie statistics' last-penalty slot is the last ordered leg carrying any
penalty score. -/
theorem tieStats_lastPen (ti : TieInput) :
    (tieStats ti).lastPen = (orderedLegs ti).reverse.find? hasPen := by
  unfold tieStats
  rw [foldl_lastPen]
  cases (orderedLegs ti).reverse.find? hasPen <;> rfl

/-- C3: for a tie between two distinct teams with equal aggregate scores, a
competition in the gated set, a known season start year at most 2020, and
differing away-goal totals, the build resolves the winner to the team with the
higher away-goal total. -/
theorem away_goals_rule_decides (ti : TieInput)
    (hwf : ∀ g ∈ ti.games, (g.home_team_id = ti.team1 ∧ g.away_team_id = ti.team2) ∨
      (g.home_team_id = ti.team2 ∧ g.away_team_id = ti.team1))
    (hne : ti.team1 ≠ ti.team2)
    (hagg : (tieStats ti).agg1 = (tieStats ti).agg2)
    (hleague : ti.league_id = 2 ∨ ti.league_id = 5 ∨ ti.league_id = 2286)
    (y : Int) (hy : ti.start_year = some y) (hy2020 : y ≤ 2020)
    (hdiff : awayGoalsOf ti.games ti.team1 ≠ awayGoalsOf ti.games ti.team2) :
    tieWinner ti =
      some (if awayGoalsOf ti.games ti.team1 > awayGoalsOf ti.games ti.team2
            then ti.team1 else ti.team2) := by
  have hgate : awayGoalsGate ti.league_id ti.start_year = true := by
    unfold awayGoalsGate yearLE2020
    rw [hy]
    rcases hleague with h | h | h <;> rw [h] <;> simp [hy2020]
  rcases tieStats_away ti hwf hne hgate with ⟨e1, e2⟩
  unfold tieWinner
  rw [if_neg (by simp [hagg])]
  rw [if_pos ⟨hgate, by rw [e1, e2]; exact hdiff⟩]
  rw [e1, e2]

/-- Witness for C3: the spec §8 scenario — aggregate 2–2, away goals 0–1 in a
pre-2021 UEFA competition — resolves to team 2. -/
theorem away_goals_rule_decides_witness : tieWinner c3Tie = some 2 := by
  have h := away_goals_rule_decides c3Tie (by decide) (by decide) (by decide)
    (Or.inl rfl) 2019 rfl (by decide) (by decide)
  exact h

/-- C4 counterexample: a single-leg tie drawn 1–1 whose only penalty record is
one-sided — no leg carries a penalty score PAIR and no rule of the claim is
decisive — yet the build sets a winner, reading the missing side as 0. -/
theorem penalty_pair_counterexample :
    c4OneSided.games.all
      (fun g => !(g.home_penalty_score.isSome && g.away_penalty_score.isSome)) = true ∧
    (tieStats c4OneSided).agg1 = (tieStats c4OneSided).agg2 ∧
    awayGoalsGate c4OneSided.league_id c4OneSided.start_year = false ∧
    tieWinner c4OneSided = some 1 :=
  ⟨rfl, rfl, rfl, rfl⟩

/-- C4 (amended): with equal aggregates and the away-goals rule inapplicable
or tied, the winner comes from the LAST ordered leg carrying a penalty score
on at least one side: each side's value is read with a missing score as 0 and
the higher value wins; equal values, or no recorded penalty score at all,
leave the winner null. -/
theorem penalty_rule_amended (ti : TieInput)
    (hagg : (tieStats ti).agg1 = (tieStats ti).agg2)
    (haway : awayGoalsGate ti.league_id ti.start_year = false ∨
      (tieStats ti).away1 = (tieStats ti).away2) :
    (tieStats ti).lastPen = (orderedLegs ti).reverse.find? hasPen ∧
    tieWinner ti =
      (match (orderedLegs ti).reverse.find? hasPen with
       | none => none
       | some g =>
         if (pen1Of ti.team1 g).getD 0 = (pen2Of ti.team1 g).getD 0 then none
         else if (pen1Of ti.team1 g).getD 0 > (pen2Of ti.team1 g).getD 0 then some ti.team1
         else some ti.team2) := by
  refine ⟨tieStats_lastPen ti, ?_⟩
  unfold tieWinner
  rw [if_neg (by simp [hagg])]
  rw [if_neg (fun hc => by
    rcases haway with hg | heq
    · rw [hg] at hc; exact absurd hc.1 (by simp)
    · exact hc.2 heq)]
  rw [tieStats_lastPen ti]
  cases hf : (orderedLegs ti).reverse.find? hasPen with
  | none => rfl
  | some g =>
    dsimp only
    by_cases he : (pen1Of ti.team1 g).getD 0 = (pen2Of ti.team1 g).getD 0
    · rw [if_neg (not_not_intro he), if_pos he]
    · rw [if_pos he, if_neg he]
      by_cases hgt : (pen1Of ti.team1 g).getD 0 > (pen2Of ti.team1 g).getD 0
      · rw [if_pos hgt, if_pos hgt]
      · rw [if_neg hgt, if_neg hgt]

/-- Witness for C4 on a 1–1 single-leg tie with a full 4–3 shootout. -/
theorem penalty_rule_amended_witness :
    (tieStats c4Pens).lastPen = some ⟨401, 1, 2, some 1, some 1, some 4, some 3, 1, 10⟩ ∧
    tieWinner c4Pens = some 1 := by
  have h := penalty_rule_amended c4Pens rfl (Or.inl rfl)
  exact ⟨h.1, h.2⟩

/-- The leg-2 penalty backfill touches only null winners. -/
theorem finalizePenLeg2_preserves (fix : Nat → Option LegRow) (kt : TieRow)
    (h : kt.winner_team_id ≠ none) : finalizePenLeg2 fix kt = kt := by
  unfold finalizePenLeg2
  rw [if_neg (fun hc => h hc.1)]

/-- The single-leg penalty backfill touches only null winners. -/
theorem finalizePenSingle_preserves (fix : Nat → Option LegRow) (kt : TieRow)
    (h : kt.winner_team_id ≠ none) : finalizePenSingle fix kt = kt := by
  unfold finalizePenSingle
  rw [if_neg (fun hc => h hc.1)]

/-- The away-goals backfill touches only null winners. -/
theorem finalizeAway_preserves (fix : Nat → Option LegRow) (seasonYear : Option Int)
    (kt : TieRow) (h : kt.winner_team_id ≠ none) : finalizeAway fix seasonYear kt = kt := by
  unfold finalizeAway
  rw [if_neg (fun hc => h hc.1)]

/-- C1 (amended): the backfill never changes a winner once set — each of its
three UPDATEs touches only rows whose winner is null — while the tie upsert
always stores exactly the freshly computed row (every non-key column, the
winner included, is overwritten), so re-running the build with unchanged
computed data is idempotent but can clear a winner that only the backfill had
set. -/
theorem finalize_only_fills_null_winner (fix : Nat → Option LegRow)
    (seasonYear : Option Int) (kt : TieRow) (w : Nat)
    (h : kt.winner_team_id = some w) :
    (finalizeTie fix seasonYear kt).winner_team_id = some w ∧
    ∀ (stored : Option TieRow) (fresh : TieRow), upsertTie stored fresh = fresh := by
  refine ⟨?_, fun _ _ => rfl⟩
  have h1 : kt.winner_team_id ≠ none := by rw [h]; exact Option.some_ne_none w
  unfold finalizeTie
  rw [finalizePenLeg2_preserves fix kt h1, finalizePenSingle_preserves fix kt h1,
    finalizeAway_preserves fix seasonYear kt h1, h]

/-- Witness for C1 on a decided tie row. -/
theorem finalize_only_fills_null_winner_witness :
    (finalizeTie c1Fix (some 2020)
        { c1BuildRow with winner_team_id := some 2 }).winner_team_id = some 2 :=
  (finalize_only_fills_null_winner c1Fix (some 2020)
    { c1BuildRow with winner_team_id := some 2 } 2 rfl).1

/-- C1 counterexample: the build leaves the C1 tie's winner null; the
backfill then fills team 2 (its away-goal CASE looks only at the stored leg-1
and leg-2 fixtures, while the build had summed away goals over all three
games); re-running the build upsert on the same fixture data overwrites the
winner back to null. -/
theorem rebuild_clears_backfilled_winner :
    (upsertTie none c1BuildRow).winner_team_id = none ∧
    (finalizeTie c1Fix (some 2020) (upsertTie none c1BuildRow)).winner_team_id = some 2 ∧
    (upsertTie (some (finalizeTie c1Fix (some 2020) (upsertTie none c1BuildRow)))
        c1BuildRow).winner_team_id = none := by
  exact ⟨rfl, rfl, rfl⟩

/-- C8 counterexample: on a non-empty input matching no timestamp format,
`_normalize_dt` returns the truncation-cleaned input itself, not null. -/
theorem normalize_dt_garbage_counterexample :
    _normalize_dt (some "not a timestamp") = some "not a timestamp" ∧
    _normalize_dt (some "not a timestamp") ≠ none := by
  refine ⟨rfl, ?_⟩
  rw [show _normalize_dt (some "not a timestamp") = some "not a timestamp" from rfl]
  exact Option.some_ne_none _

/-- C8 (amended): timestamp normalization accepts ISO-8601 with or without a
zone offset or Z suffix and strips the timezone, falls back to
truncation-based cleanup when strict parsing fails, and returns null exactly
when the input is null or empty — an unparseable non-empty string is returned
truncated, not as null. -/
theorem normalize_dt_spec :
    (∀ s : Option String, _normalize_dt s = none ↔ (s = none ∨ s = some "")) ∧
    _normalize_dt (some "2024-08-01T19:30:00Z") = some "2024-08-01 19:30:00" ∧
    _normalize_dt (some "2024-08-01T19:30:00+09:00") = some "2024-08-01 19:30:00" ∧
    _normalize_dt (some "2024-08-01 19:30:00") = some "2024-08-01 19:30:00" ∧
    _normalize_dt (some "2024-08-01") = some "2024-08-01 00:00:00" ∧
    _normalize_dt (some "2024-08-01T19:30:00.123+00:00") = some "2024-08-01 19:30:00" := by
  refine ⟨?_, rfl, rfl, rfl, rfl, rfl⟩
  intro s
  cases s with
  | none => simp [_normalize_dt]
  | some str =>
    by_cases h : str = ""
    · simp [_normalize_dt, h]
    · simp only [_normalize_dt, if_neg h]
      cases fromisoformat (replaceChar str 'Z' "+00:00") <;> simp [h]

end OneTouch
